import Mathlib

/-!
Verification of the jj-mcp-server argument-construction and subprocess-result
layer (src/index.ts).  The server exposes Jujutsu (jj) operations as MCP
tools; each tool handler builds an ordered command-line token list from its
validated parameters and passes it to `runJJCommand`, which normalizes the
subprocess outcome into a single text payload.

Strings handed to or produced by the subprocess are modelled as `List Char`
(so that trimming can be reasoned about element-wise); command-line tokens
are modelled as Lean `String`s.  JavaScript truthiness is modelled
explicitly: an optional string parameter is truthy iff it is present and
non-empty, an optional boolean iff it is `some true`, an optional number
under an `if (x)` test iff it is present and non-zero, and an optional
array is truthy whenever it is present (even when empty).
-/

/-- The set of characters removed by JavaScript's `String.prototype.trim`:
ECMAScript WhiteSpace and LineTerminator code points. -/
def jsWhitespace (c : Char) : Bool :=
  c == '\t' || c == '\n' || c == '\x0B' || c == '\x0C' || c == '\r' ||
  c == ' ' || c == '\u00A0' || c == '\u1680' ||
  c == '\u2000' || c == '\u2001' || c == '\u2002' || c == '\u2003' ||
  c == '\u2004' || c == '\u2005' || c == '\u2006' || c == '\u2007' ||
  c == '\u2008' || c == '\u2009' || c == '\u200A' ||
  c == '\u2028' || c == '\u2029' || c == '\u202F' || c == '\u205F' ||
  c == '\u3000' || c == '\uFEFF'

/-- Remove the leading run and the trailing run of characters satisfying `p`. -/
def trimBy (p : Char → Bool) (s : List Char) : List Char :=
  ((s.dropWhile p).reverse.dropWhile p).reverse

/-- JavaScript `String.prototype.trim` on the character-list model. -/
def trimChars (s : List Char) : List Char :=
  trimBy jsWhitespace s

/-- The marker prepended to every failure payload: the `Error: ` template-literal
marker in `runJJCommand`. -/
def errTag : List Char := "Error: ".toList

/-- The error value observed in `runJJCommand`'s catch block when
`execFileAsync` rejects.  `promisify(execFile)` attaches the captured
standard-error text to the error (empty when the process never started),
`message` is the Error's message (the operating-system description for a
spawn failure), and `exitCode` is the non-zero exit status when the process
ran (`none` when the spawn itself failed). -/
structure ExecError where
  exitCode : Option Int
  stderr : List Char
  message : List Char
  deriving DecidableEq

/-- Outcome of `execFileAsync(JJ_COMMAND, args, { cwd })`: either a fulfilled
promise carrying standard output, or a rejection carrying an `ExecError`. -/
inductive ExecOutcome where
  | ok (stdout : List Char)
  | err (e : ExecError)
  deriving DecidableEq

/-- `runJJCommand` (src/index.ts lines 20-30), as a function of the
subprocess outcome: on fulfillment return the trimmed standard output; on
rejection return `Error: ` followed by the trimmed standard-error text when
`error.stderr` is truthy (non-empty), otherwise by `error.message`. -/
def runJJCommand (outcome : ExecOutcome) : List Char :=
  match outcome with
  | ExecOutcome.ok stdout => trimChars stdout
  | ExecOutcome.err e =>
      if e.stderr ≠ [] then errTag ++ trimChars e.stderr
      else errTag ++ e.message

section TrimLemmas

variable {α : Type} (p : α → Bool)

theorem dropWhile_self_idem (l : List α) :
    (l.dropWhile p).dropWhile p = l.dropWhile p := by
  induction l with
  | nil => rfl
  | cons a l ih =>
      by_cases h : p a <;> simp [List.dropWhile_cons, h, ih]

theorem dropWhile_length_le (l : List α) :
    (l.dropWhile p).length ≤ l.length := by
  induction l with
  | nil => simp
  | cons a l ih =>
      by_cases h : p a
      · rw [List.dropWhile_cons, if_pos h]
        exact Nat.le_succ_of_le ih
      · rw [List.dropWhile_cons, if_neg h]

theorem dropWhile_eq_self_of_head (c : α) (t : List α)
    (h : (c :: t).dropWhile p = c :: t) : p c = false := by
  by_cases hc : p c
  · rw [List.dropWhile_cons, if_pos hc] at h
    have hlen := congrArg List.length h
    have hle := dropWhile_length_le p t
    simp at hlen
    omega
  · simpa using hc

theorem dropWhile_eq_self_of_append (r y a : List α) (hra : r ++ y = a)
    (ha : a.dropWhile p = a) : r.dropWhile p = r := by
  cases r with
  | nil => rfl
  | cons c t =>
      have h2 : (c :: (t ++ y)).dropWhile p = c :: (t ++ y) := by
        rw [List.cons_append] at hra
        rw [hra]
        exact ha
      have hc : p c = false := dropWhile_eq_self_of_head p c (t ++ y) h2
      rw [List.dropWhile_cons, if_neg (by simp [hc])]

end TrimLemmas

/-- Decomposition of the trimmed list: the input is a whitespace prefix,
the trimmed value, and a whitespace suffix, and the trimmed value carries
no leading and no trailing character satisfying `p`. -/
theorem trimBy_decomp (p : Char → Bool) (s : List Char) :
    ∃ pre suf : List Char,
      pre.all p = true ∧ suf.all p = true ∧
      s = pre ++ trimBy p s ++ suf ∧
      (trimBy p s).dropWhile p = trimBy p s ∧
      (trimBy p s).reverse.dropWhile p = (trimBy p s).reverse := by
  refine ⟨s.takeWhile p, ((s.dropWhile p).reverse.takeWhile p).reverse,
    ?_, ?_, ?_, ?_, ?_⟩
  · exact List.all_eq_true.mpr fun x hx => List.mem_takeWhile_imp hx
  · exact List.all_eq_true.mpr fun x hx =>
      List.mem_takeWhile_imp (List.mem_reverse.mp hx)
  · have h1 : trimBy p s ++ ((s.dropWhile p).reverse.takeWhile p).reverse
        = s.dropWhile p := by
      unfold trimBy
      rw [← List.reverse_append, List.takeWhile_append_dropWhile,
        List.reverse_reverse]
    rw [List.append_assoc, h1, List.takeWhile_append_dropWhile]
  · have h1 : trimBy p s ++ ((s.dropWhile p).reverse.takeWhile p).reverse
        = s.dropWhile p := by
      unfold trimBy
      rw [← List.reverse_append, List.takeWhile_append_dropWhile,
        List.reverse_reverse]
    exact dropWhile_eq_self_of_append p (trimBy p s)
      ((s.dropWhile p).reverse.takeWhile p).reverse (s.dropWhile p) h1
      (dropWhile_self_idem p s)
  · have : (trimBy p s).reverse = (s.dropWhile p).reverse.dropWhile p := by
      unfold trimBy
      rw [List.reverse_reverse]
    rw [this]
    exact dropWhile_self_idem p _

/-!
Argument builders.  Each tool handler in src/index.ts starts from a fixed
token list and conditionally appends flag tokens with `args.push(...)`.
The five helpers below capture the JavaScript truthiness idioms used by the
handlers; each builder then mirrors its handler's pushes in source order.
A tool's `cwd` parameter never enters the argument list (it is forwarded
to `execFileAsync` as the spawn working directory), so it is not a builder
input.
-/

/-- `if (v) { args.push(...toks(v)) }` for an optional string parameter:
truthy iff present and non-empty. -/
def pushIfStr (args : List String) (v : Option String)
    (toks : String → List String) : List String :=
  match v with
  | some s => if s.isEmpty then args else args ++ toks s
  | none => args

/-- `if (v) { args.push(...toks) }` for an optional boolean parameter:
truthy iff `some true`. -/
def pushIfBool (args : List String) (v : Option Bool)
    (toks : List String) : List String :=
  match v with
  | some b => if b then args ++ toks else args
  | none => args

/-- `if (v !== undefined) { args.push(...toks(v)) }` for an optional
numeric parameter tested for presence. -/
def pushIfNumPresent (args : List String) (v : Option Nat)
    (toks : Nat → List String) : List String :=
  match v with
  | some n => args ++ toks n
  | none => args

/-- `if (v) { args.push(...toks(v)) }` for an optional numeric parameter
tested for truthiness: truthy iff present and non-zero. -/
def pushIfNumTruthy (args : List String) (v : Option Nat)
    (toks : Nat → List String) : List String :=
  match v with
  | some n => if n = 0 then args else args ++ toks n
  | none => args

/-- `if (v) { args.push(...toks(v)) }` for an optional array parameter:
every array — including the empty one — is truthy in JavaScript. -/
def pushIfArr (args : List String) (v : Option (List String))
    (toks : List String → List String) : List String :=
  match v with
  | some xs => args ++ toks xs
  | none => args

/-- Tool `status` (lines 42-51). -/
def statusArgs (repoPath : Option String) : List String :=
  let args := ["status"]
  let args := pushIfStr args repoPath (fun s => ["--repository", s])
  args

/-- Tool `rebase` (lines 68-77). -/
def rebaseArgs (source destination : String)
    (repoPath : Option String) : List String :=
  let args := ["rebase", "--source", source, "--destination", destination]
  let args := pushIfStr args repoPath (fun s => ["--repository", s])
  args

/-- Tool `commit` (lines 92-101). -/
def commitArgs (message : String) (repoPath : Option String) : List String :=
  let args := ["commit", "-m", message]
  let args := pushIfStr args repoPath (fun s => ["--repository", s])
  args

/-- Tool `new` (lines 116-128). -/
def newArgs (parents repoPath : Option String) : List String :=
  let args := ["new"]
  let args := pushIfStr args parents (fun s => ["--parents", s])
  let args := pushIfStr args repoPath (fun s => ["--repository", s])
  args

/-- Tool `abandon` (lines 143-152). -/
def abandonArgs (revisions : String) (repoPath : Option String) :
    List String :=
  let args := ["abandon", revisions]
  let args := pushIfStr args repoPath (fun s => ["--repository", s])
  args

/-- Tool `log` (lines 167-179): `limit` is tested with `!== undefined`. -/
def logArgs (repoPath : Option String) (limit : Option Nat) : List String :=
  let args := ["log"]
  let args := pushIfStr args repoPath (fun s => ["--repository", s])
  let args := pushIfNumPresent args limit (fun n => ["-n", toString n])
  args

/-- Tool `bookmark-create` (lines 196-208). -/
def bookmarkCreateArgs (name : String) (revision repoPath : Option String) :
    List String :=
  let args := ["bookmark", "create", name]
  let args := pushIfStr args revision (fun s => ["-r", s])
  let args := pushIfStr args repoPath (fun s => ["--repository", s])
  args

/-- Tool `bookmark-delete` (lines 223-232): `names` is spliced. -/
def bookmarkDeleteArgs (names : List String) (repoPath : Option String) :
    List String :=
  let args := ["bookmark", "delete"] ++ names
  let args := pushIfStr args repoPath (fun s => ["--repository", s])
  args

/-- Tool `bookmark-forget` (lines 247-256): `names` is spliced. -/
def bookmarkForgetArgs (names : List String) (repoPath : Option String) :
    List String :=
  let args := ["bookmark", "forget"] ++ names
  let args := pushIfStr args repoPath (fun s => ["--repository", s])
  args

/-- Tool `bookmark-list` (lines 271-283). -/
def bookmarkListArgs (repoPath template : Option String) : List String :=
  let args := ["bookmark", "list"]
  let args := pushIfStr args repoPath (fun s => ["--repository", s])
  let args := pushIfStr args template (fun s => ["-T", s])
  args

/-- Tool `bookmark-move` (lines 300-309): `names` is spliced before `-t`. -/
def bookmarkMoveArgs (names : List String) (revision : String)
    (repoPath : Option String) : List String :=
  let args := ["bookmark", "move"] ++ names ++ ["-t", revision]
  let args := pushIfStr args repoPath (fun s => ["--repository", s])
  args

/-- Tool `bookmark-rename` (lines 326-335). -/
def bookmarkRenameArgs (oldName newName : String)
    (repoPath : Option String) : List String :=
  let args := ["bookmark", "rename", oldName, newName]
  let args := pushIfStr args repoPath (fun s => ["--repository", s])
  args

/-- Tool `bookmark-set` (lines 352-361). -/
def bookmarkSetArgs (name revision : String) (repoPath : Option String) :
    List String :=
  let args := ["bookmark", "set", name, "-r", revision]
  let args := pushIfStr args repoPath (fun s => ["--repository", s])
  args

/-- Tool `bookmark-track` (lines 376-385). -/
def bookmarkTrackArgs (remoteBookmark : String)
    (repoPath : Option String) : List String :=
  let args := ["bookmark", "track", remoteBookmark]
  let args := pushIfStr args repoPath (fun s => ["--repository", s])
  args

/-- Tool `bookmark-untrack` (lines 400-409). -/
def bookmarkUntrackArgs (remoteBookmark : String)
    (repoPath : Option String) : List String :=
  let args := ["bookmark", "untrack", remoteBookmark]
  let args := pushIfStr args repoPath (fun s => ["--repository", s])
  args

/-- Tool `diff` (lines 430-451): `context` is tested with `!== undefined`,
`stat` for truthiness. -/
def diffArgs (fromRev toRev repoPath : Option String)
    (context : Option Nat) (stat : Option Bool) : List String :=
  let args := ["diff"]
  let args := pushIfStr args fromRev (fun s => ["-f", s])
  let args := pushIfStr args toRev (fun s => ["-t", s])
  let args := pushIfStr args repoPath (fun s => ["--repository", s])
  let args := pushIfNumPresent args context (fun n => ["--context", toString n])
  let args := pushIfBool args stat ["--stat"]
  args

/-- Tool `git-clone` (lines 470-488): `depth` is tested for truthiness. -/
def gitCloneArgs (source : String) (destination remoteName : Option String)
    (colocate : Option Bool) (depth : Option Nat) : List String :=
  let args := ["git", "clone", source]
  let args := pushIfStr args destination (fun s => [s])
  let args := pushIfStr args remoteName (fun s => ["--remote", s])
  let args := pushIfBool args colocate ["--colocate"]
  let args := pushIfNumTruthy args depth (fun n => ["--depth", toString n])
  args

/-- Tool `git-export` (lines 501-510). -/
def gitExportArgs (repoPath : Option String) : List String :=
  let args := ["git", "export"]
  let args := pushIfStr args repoPath (fun s => ["--repository", s])
  args

/-- Tool `git-fetch` (lines 527-542): `branches` is pushed as the shared
flag `--branch` followed by the spliced elements whenever the array is
present, even when it is empty. -/
def gitFetchArgs (remote repoPath : Option String)
    (branches : Option (List String)) : List String :=
  let args := ["git", "fetch"]
  let args := pushIfStr args remote (fun s => ["--remote", s])
  let args := pushIfStr args repoPath (fun s => ["--repository", s])
  let args := pushIfArr args branches (fun xs => "--branch" :: xs)
  args

/-- Tool `git-import` (lines 555-564). -/
def gitImportArgs (repoPath : Option String) : List String :=
  let args := ["git", "import"]
  let args := pushIfStr args repoPath (fun s => ["--repository", s])
  args

/-- Tool `init` (lines 579-594). -/
def initArgs (destination : Option String) (colocate : Option Bool)
    (gitRepo : Option String) : List String :=
  let args := ["git", "init"]
  let args := pushIfStr args destination (fun s => [s])
  let args := pushIfBool args colocate ["--colocate"]
  let args := pushIfStr args gitRepo (fun s => ["--git-repo", s])
  args

/-- Tool `git-push` (lines 629-655): `bookmarks` is pushed as the shared
flag `--bookmark` followed by the spliced elements whenever the array is
present, even when it is empty. -/
def gitPushArgs (remote : Option String) (bookmarks : Option (List String))
    (allFlag tracked deleted allowNew : Option Bool)
    (repoPath : Option String) : List String :=
  let args := ["git", "push"]
  let args := pushIfStr args remote (fun s => ["--remote", s])
  let args := pushIfArr args bookmarks (fun xs => "--bookmark" :: xs)
  let args := pushIfBool args allFlag ["--all"]
  let args := pushIfBool args tracked ["--tracked"]
  let args := pushIfBool args deleted ["--deleted"]
  let args := pushIfBool args allowNew ["--allow-new"]
  let args := pushIfStr args repoPath (fun s => ["--repository", s])
  args

/-- Tool `git-remote-add` (lines 672-681). -/
def gitRemoteAddArgs (name url : String) (repoPath : Option String) :
    List String :=
  let args := ["git", "remote", "add", name, url]
  let args := pushIfStr args repoPath (fun s => ["--repository", s])
  args

/-- Tool `git-remote-list` (lines 694-703). -/
def gitRemoteListArgs (repoPath : Option String) : List String :=
  let args := ["git", "remote", "list"]
  let args := pushIfStr args repoPath (fun s => ["--repository", s])
  args

/-- Tool `git-remote-remove` (lines 718-727). -/
def gitRemoteRemoveArgs (name : String) (repoPath : Option String) :
    List String :=
  let args := ["git", "remote", "remove", name]
  let args := pushIfStr args repoPath (fun s => ["--repository", s])
  args

/-- Tool `git-remote-rename` (lines 744-753). -/
def gitRemoteRenameArgs (oldName newName : String)
    (repoPath : Option String) : List String :=
  let args := ["git", "remote", "rename", oldName, newName]
  let args := pushIfStr args repoPath (fun s => ["--repository", s])
  args

/-- Tool `git-remote-set-url` (lines 770-779). -/
def gitRemoteSetUrlArgs (name url : String) (repoPath : Option String) :
    List String :=
  let args := ["git", "remote", "set-url", name, url]
  let args := pushIfStr args repoPath (fun s => ["--repository", s])
  args

/-- Tool `git-root` (lines 792-801). -/
def gitRootArgs (repoPath : Option String) : List String :=
  let args := ["git", "root"]
  let args := pushIfStr args repoPath (fun s => ["--repository", s])
  args

/-- Tool `show` (lines 818-833): `context` is tested with `!== undefined`. -/
def showArgs (revision repoPath : Option String) (context : Option Nat) :
    List String :=
  let args := ["show"]
  let args := pushIfStr args revision (fun s => ["-r", s])
  let args := pushIfStr args repoPath (fun s => ["--repository", s])
  let args := pushIfNumPresent args context (fun n => ["--context", toString n])
  args

/-- Tool `revert` (lines 850-863): `revisions` is spliced after the
optional `-d` flag. -/
def revertArgs (revisions : List String)
    (destination repoPath : Option String) : List String :=
  let args := ["revert"]
  let args := pushIfStr args destination (fun s => ["-d", s])
  let args := args ++ revisions
  let args := pushIfStr args repoPath (fun s => ["--repository", s])
  args

/-- Tool `restore` (lines 882-898): `paths` is spliced after the optional
`-f` and `-t` flags. -/
def restoreArgs (source destination : Option String) (paths : List String)
    (repoPath : Option String) : List String :=
  let args := ["restore"]
  let args := pushIfStr args source (fun s => ["-f", s])
  let args := pushIfStr args destination (fun s => ["-t", s])
  let args := args ++ paths
  let args := pushIfStr args repoPath (fun s => ["--repository", s])
  args

/-- Tool `interdiff` (lines 917-929): `context` is tested with
`!== undefined`. -/
def interdiffArgs (fromRev toRev : String) (repoPath : Option String)
    (context : Option Nat) : List String :=
  let args := ["interdiff", "-f", fromRev, "-t", toRev]
  let args := pushIfStr args repoPath (fun s => ["--repository", s])
  let args := pushIfNumPresent args context (fun n => ["--context", toString n])
  args

/-- Tool `evolog` (lines 948-966): `limit` is tested for truthiness. -/
def evologArgs (revision repoPath : Option String) (limit : Option Nat)
    (patch : Option Bool) : List String :=
  let args := ["evolog"]
  let args := pushIfStr args revision (fun s => ["-r", s])
  let args := pushIfStr args repoPath (fun s => ["--repository", s])
  let args := pushIfNumTruthy args limit (fun n => ["-n", toString n])
  let args := pushIfBool args patch ["-p"]
  args

/-- Tool `edit` (lines 988-997). -/
def editArgs (revision : String) (repoPath : Option String) : List String :=
  let args := ["edit", revision]
  let args := pushIfStr args repoPath (fun s => ["--repository", s])
  args

/-- Tool `file-annotate` (lines 1014-1027): `path` is pushed after the
optional `-r` flag. -/
def fileAnnotateArgs (path : String) (revision repoPath : Option String) :
    List String :=
  let args := ["file", "annotate"]
  let args := pushIfStr args revision (fun s => ["-r", s])
  let args := args ++ [path]
  let args := pushIfStr args repoPath (fun s => ["--repository", s])
  args

/-- Tool `file-chmod` (lines 1046-1060): `mode` then `paths` are pushed
after the optional `-r` flag. -/
def fileChmodArgs (mode : String) (paths : List String)
    (revision repoPath : Option String) : List String :=
  let args := ["file", "chmod"]
  let args := pushIfStr args revision (fun s => ["-r", s])
  let args := args ++ [mode]
  let args := args ++ paths
  let args := pushIfStr args repoPath (fun s => ["--repository", s])
  args

/-- Tool `file-list` (lines 1077-1092): the optional `paths` array is
spliced bare (no flag). -/
def fileListArgs (revision : Option String) (paths : Option (List String))
    (repoPath : Option String) : List String :=
  let args := ["file", "list"]
  let args := pushIfStr args revision (fun s => ["-r", s])
  let args := pushIfArr args paths (fun xs => xs)
  let args := pushIfStr args repoPath (fun s => ["--repository", s])
  args

/-- Tool `file-show` (lines 1109-1122): `paths` is spliced after the
optional `-r` flag. -/
def fileShowArgs (paths : List String) (revision repoPath : Option String) :
    List String :=
  let args := ["file", "show"]
  let args := pushIfStr args revision (fun s => ["-r", s])
  let args := args ++ paths
  let args := pushIfStr args repoPath (fun s => ["--repository", s])
  args

/-- Tool `file-track` (lines 1137-1146): `paths` is spliced. -/
def fileTrackArgs (paths : List String) (repoPath : Option String) :
    List String :=
  let args := ["file", "track"] ++ paths
  let args := pushIfStr args repoPath (fun s => ["--repository", s])
  args

/-- Tool `file-untrack` (lines 1161-1170): `paths` is spliced. -/
def fileUntrackArgs (paths : List String) (repoPath : Option String) :
    List String :=
  let args := ["file", "untrack"] ++ paths
  let args := pushIfStr args repoPath (fun s => ["--repository", s])
  args

/-- Tool `squash` (lines 1191-1212): the optional `paths` array is spliced
bare (no flag). -/
def squashArgs (source destination : Option String)
    (paths : Option (List String)) (keepEmptied : Option Bool)
    (repoPath : Option String) : List String :=
  let args := ["squash"]
  let args := pushIfStr args source (fun s => ["-f", s])
  let args := pushIfStr args destination (fun s => ["-t", s])
  let args := pushIfArr args paths (fun xs => xs)
  let args := pushIfBool args keepEmptied ["-k"]
  let args := pushIfStr args repoPath (fun s => ["--repository", s])
  args

/-- Tool `workspace-root` (lines 1225-1234). -/
def workspaceRootArgs (repoPath : Option String) : List String :=
  let args := ["workspace", "root"]
  let args := pushIfStr args repoPath (fun s => ["--repository", s])
  args

/-- Tool `operation-abandon` (lines 1249-1258). -/
def operationAbandonArgs (operation : String) (repoPath : Option String) :
    List String :=
  let args := ["operation", "abandon", operation]
  let args := pushIfStr args repoPath (fun s => ["--repository", s])
  args

/-- Tool `operation-diff` (lines 1277-1295): `context` is tested with
`!== undefined`. -/
def operationDiffArgs (fromOp toOp repoPath : Option String)
    (context : Option Nat) : List String :=
  let args := ["operation", "diff"]
  let args := pushIfStr args fromOp (fun s => ["-f", s])
  let args := pushIfStr args toOp (fun s => ["-t", s])
  let args := pushIfStr args repoPath (fun s => ["--repository", s])
  let args := pushIfNumPresent args context (fun n => ["--context", toString n])
  args

/-- Tool `operation-log` (lines 1310-1322): `limit` is tested for
truthiness and pushed before the optional repository flag. -/
def operationLogArgs (limit : Option Nat) (repoPath : Option String) :
    List String :=
  let args := ["operation", "log"]
  let args := pushIfNumTruthy args limit (fun n => ["-n", toString n])
  let args := pushIfStr args repoPath (fun s => ["--repository", s])
  args

/-- Tool `operation-restore` (lines 1337-1346). -/
def operationRestoreArgs (operation : String) (repoPath : Option String) :
    List String :=
  let args := ["operation", "restore", operation]
  let args := pushIfStr args repoPath (fun s => ["--repository", s])
  args

/-- Tool `operation-show` (lines 1361-1373): the optional `operation` is
pushed bare as a positional token. -/
def operationShowArgs (operation repoPath : Option String) : List String :=
  let args := ["operation", "show"]
  let args := pushIfStr args operation (fun s => [s])
  let args := pushIfStr args repoPath (fun s => ["--repository", s])
  args

/-- Tool `operation-undo` (lines 1388-1400): the optional `operation` is
pushed bare as a positional token. -/
def operationUndoArgs (operation repoPath : Option String) : List String :=
  let args := ["operation", "undo"]
  let args := pushIfStr args operation (fun s => [s])
  let args := pushIfStr args repoPath (fun s => ["--repository", s])
  args

/-- Tool `config-get` (lines 1415-1424). -/
def configGetArgs (name : String) (repoPath : Option String) : List String :=
  let args := ["config", "get", name]
  let args := pushIfStr args repoPath (fun s => ["--repository", s])
  args

/-- Tool `config-list` (lines 1447-1479): the optional `name` is pushed
bare, then the four boolean flags, then the repository flag. -/
def configListArgs (name : Option String)
    (includeDefaults includeOverridden user repo : Option Bool)
    (repoPath : Option String) : List String :=
  let args := ["config", "list"]
  let args := pushIfStr args name (fun s => [s])
  let args := pushIfBool args includeDefaults ["--include-defaults"]
  let args := pushIfBool args includeOverridden ["--include-overridden"]
  let args := pushIfBool args user ["--user"]
  let args := pushIfBool args repo ["--repo"]
  let args := pushIfStr args repoPath (fun s => ["--repository", s])
  args

/-- Tool `config-set` (lines 1500-1516): `name` and `value` are pushed
after the optional `--user`/`--repo` flags. -/
def configSetArgs (name value : String) (user repo : Option Bool)
    (repoPath : Option String) : List String :=
  let args := ["config", "set"]
  let args := pushIfBool args user ["--user"]
  let args := pushIfBool args repo ["--repo"]
  let args := args ++ [name, value]
  let args := pushIfStr args repoPath (fun s => ["--repository", s])
  args

/-- Tool `config-unset` (lines 1535-1551): `name` is pushed after the
optional `--user`/`--repo` flags. -/
def configUnsetArgs (name : String) (user repo : Option Bool)
    (repoPath : Option String) : List String :=
  let args := ["config", "unset"]
  let args := pushIfBool args user ["--user"]
  let args := pushIfBool args repo ["--repo"]
  let args := args ++ [name]
  let args := pushIfStr args repoPath (fun s => ["--repository", s])
  args

/-- Tool `config-path` (lines 1568-1583). -/
def configPathArgs (user repo : Option Bool) (repoPath : Option String) :
    List String :=
  let args := ["config", "path"]
  let args := pushIfBool args user ["--user"]
  let args := pushIfBool args repo ["--repo"]
  let args := pushIfStr args repoPath (fun s => ["--repository", s])
  args

/-- Tool `tag-list` (lines 1600-1615): the optional `names` array is
spliced bare (no flag). -/
def tagListArgs (names : Option (List String))
    (repoPath template : Option String) : List String :=
  let args := ["tag", "list"]
  let args := pushIfArr args names (fun xs => xs)
  let args := pushIfStr args repoPath (fun s => ["--repository", s])
  let args := pushIfStr args template (fun s => ["-T", s])
  args

/-- Tool `describe` (lines 1651-1677): the repository flag is pushed
first, then `-m message`, the author flags, and finally the optional
positional revset. -/
def describeArgs (message : String) (revisions : Option String)
    (resetAuthor : Option Bool) (author : Option String)
    (repoPath : Option String) : List String :=
  let args := ["describe"]
  let args := pushIfStr args repoPath (fun s => ["--repository", s])
  let args := args ++ ["-m", message]
  let args := pushIfBool args resetAuthor ["--reset-author"]
  let args := pushIfStr args author (fun s => ["--author", s])
  let args := pushIfStr args revisions (fun s => [s])
  args

/-!
Specification-side token segments.  The spec describes each optional
parameter as contributing an independent segment to the argument list:
exactly the flag (plus value) when the parameter is supplied with a truthy
value, and no tokens at all when it is omitted or falsy.  The builders are
proved equal to the fixed head followed by these segments in source order.
-/

/-- Segment contributed by an optional string parameter: its tokens when
present and non-empty, nothing otherwise. -/
def strSeg (v : Option String) (toks : String → List String) : List String :=
  match v with
  | some s => if s.isEmpty then [] else toks s
  | none => []

/-- Segment contributed by an optional boolean parameter: its tokens when
`some true`, nothing otherwise. -/
def boolSeg (v : Option Bool) (toks : List String) : List String :=
  match v with
  | some b => if b then toks else []
  | none => []

/-- Segment contributed by a presence-tested optional numeric parameter:
its tokens whenever present. -/
def numPresentSeg (v : Option Nat) (toks : Nat → List String) : List String :=
  match v with
  | some n => toks n
  | none => []

/-- Segment contributed by a truthiness-tested optional numeric parameter:
its tokens when present and non-zero, nothing otherwise. -/
def numTruthySeg (v : Option Nat) (toks : Nat → List String) : List String :=
  match v with
  | some n => if n = 0 then [] else toks n
  | none => []

/-- Segment contributed by an optional array parameter: its tokens whenever
the array is present (even empty), nothing when absent. -/
def arrSeg (v : Option (List String)) (toks : List String → List String) :
    List String :=
  match v with
  | some xs => toks xs
  | none => []

theorem pushIfStr_eq_append (args : List String) (v : Option String)
    (toks : String → List String) :
    pushIfStr args v toks = args ++ strSeg v toks := by
  cases v with
  | none => simp [pushIfStr, strSeg]
  | some s => by_cases h : s.isEmpty <;> simp [pushIfStr, strSeg, h]

theorem pushIfBool_eq_append (args : List String) (v : Option Bool)
    (toks : List String) :
    pushIfBool args v toks = args ++ boolSeg v toks := by
  cases v with
  | none => simp [pushIfBool, boolSeg]
  | some b => cases b <;> simp [pushIfBool, boolSeg]

theorem pushIfNumPresent_eq_append (args : List String) (v : Option Nat)
    (toks : Nat → List String) :
    pushIfNumPresent args v toks = args ++ numPresentSeg v toks := by
  cases v <;> simp [pushIfNumPresent, numPresentSeg]

theorem pushIfNumTruthy_eq_append (args : List String) (v : Option Nat)
    (toks : Nat → List String) :
    pushIfNumTruthy args v toks = args ++ numTruthySeg v toks := by
  cases v with
  | none => simp [pushIfNumTruthy, numTruthySeg]
  | some n => by_cases h : n = 0 <;> simp [pushIfNumTruthy, numTruthySeg, h]

theorem pushIfArr_eq_append (args : List String) (v : Option (List String))
    (toks : List String → List String) :
    pushIfArr args v toks = args ++ arrSeg v toks := by
  cases v <;> simp [pushIfArr, arrSeg]

/-- C4: for every tool, when every optional parameter is omitted, the
argument list is exactly the tool's fixed subcommand tokens followed by its
always-required positional and flag arguments; no optional flag token
appears. -/
theorem claim4_all_optionals_omitted :
    (statusArgs none = ["status"]) ∧
    (∀ source destination : String, rebaseArgs source destination none
      = ["rebase", "--source", source, "--destination", destination]) ∧
    (∀ message : String, commitArgs message none = ["commit", "-m", message]) ∧
    (newArgs none none = ["new"]) ∧
    (∀ revisions : String, abandonArgs revisions none
      = ["abandon", revisions]) ∧
    (logArgs none none = ["log"]) ∧
    (∀ name : String, bookmarkCreateArgs name none none
      = ["bookmark", "create", name]) ∧
    (∀ names : List String, bookmarkDeleteArgs names none
      = ["bookmark", "delete"] ++ names) ∧
    (∀ names : List String, bookmarkForgetArgs names none
      = ["bookmark", "forget"] ++ names) ∧
    (bookmarkListArgs none none = ["bookmark", "list"]) ∧
    (∀ (names : List String) (revision : String),
      bookmarkMoveArgs names revision none
        = ["bookmark", "move"] ++ names ++ ["-t", revision]) ∧
    (∀ oldName newName : String, bookmarkRenameArgs oldName newName none
      = ["bookmark", "rename", oldName, newName]) ∧
    (∀ name revision : String, bookmarkSetArgs name revision none
      = ["bookmark", "set", name, "-r", revision]) ∧
    (∀ remoteBookmark : String, bookmarkTrackArgs remoteBookmark none
      = ["bookmark", "track", remoteBookmark]) ∧
    (∀ remoteBookmark : String, bookmarkUntrackArgs remoteBookmark none
      = ["bookmark", "untrack", remoteBookmark]) ∧
    (diffArgs none none none none none = ["diff"]) ∧
    (∀ source : String, gitCloneArgs source none none none none
      = ["git", "clone", source]) ∧
    (gitExportArgs none = ["git", "export"]) ∧
    (gitFetchArgs none none none = ["git", "fetch"]) ∧
    (gitImportArgs none = ["git", "import"]) ∧
    (initArgs none none none = ["git", "init"]) ∧
    (gitPushArgs none none none none none none none = ["git", "push"]) ∧
    (∀ name url : String, gitRemoteAddArgs name url none
      = ["git", "remote", "add", name, url]) ∧
    (gitRemoteListArgs none = ["git", "remote", "list"]) ∧
    (∀ name : String, gitRemoteRemoveArgs name none
      = ["git", "remote", "remove", name]) ∧
    (∀ oldName newName : String, gitRemoteRenameArgs oldName newName none
      = ["git", "remote", "rename", oldName, newName]) ∧
    (∀ name url : String, gitRemoteSetUrlArgs name url none
      = ["git", "remote", "set-url", name, url]) ∧
    (gitRootArgs none = ["git", "root"]) ∧
    (showArgs none none none = ["show"]) ∧
    (∀ revisions : List String, revertArgs revisions none none
      = ["revert"] ++ revisions) ∧
    (∀ paths : List String, restoreArgs none none paths none
      = ["restore"] ++ paths) ∧
    (∀ fromRev toRev : String, interdiffArgs fromRev toRev none none
      = ["interdiff", "-f", fromRev, "-t", toRev]) ∧
    (evologArgs none none none none = ["evolog"]) ∧
    (∀ revision : String, editArgs revision none = ["edit", revision]) ∧
    (∀ path : String, fileAnnotateArgs path none none
      = ["file", "annotate", path]) ∧
    (∀ (mode : String) (paths : List String),
      fileChmodArgs mode paths none none
        = ["file", "chmod", mode] ++ paths) ∧
    (fileListArgs none none none = ["file", "list"]) ∧
    (∀ paths : List String, fileShowArgs paths none none
      = ["file", "show"] ++ paths) ∧
    (∀ paths : List String, fileTrackArgs paths none
      = ["file", "track"] ++ paths) ∧
    (∀ paths : List String, fileUntrackArgs paths none
      = ["file", "untrack"] ++ paths) ∧
    (squashArgs none none none none none = ["squash"]) ∧
    (workspaceRootArgs none = ["workspace", "root"]) ∧
    (∀ operation : String, operationAbandonArgs operation none
      = ["operation", "abandon", operation]) ∧
    (operationDiffArgs none none none none = ["operation", "diff"]) ∧
    (operationLogArgs none none = ["operation", "log"]) ∧
    (∀ operation : String, operationRestoreArgs operation none
      = ["operation", "restore", operation]) ∧
    (operationShowArgs none none = ["operation", "show"]) ∧
    (operationUndoArgs none none = ["operation", "undo"]) ∧
    (∀ name : String, configGetArgs name none = ["config", "get", name]) ∧
    (configListArgs none none none none none none = ["config", "list"]) ∧
    (∀ name value : String, configSetArgs name value none none none
      = ["config", "set", name, value]) ∧
    (∀ name : String, configUnsetArgs name none none none
      = ["config", "unset", name]) ∧
    (configPathArgs none none none = ["config", "path"]) ∧
    (tagListArgs none none none = ["tag", "list"]) ∧
    (∀ message : String, describeArgs message none none none none
      = ["describe", "-m", message]) := by
  refine ⟨?_, ?_, ?_, ?_, ?_, ?_, ?_, ?_, ?_, ?_, ?_, ?_, ?_, ?_, ?_, ?_,
    ?_, ?_, ?_, ?_, ?_, ?_, ?_, ?_, ?_, ?_, ?_, ?_, ?_, ?_, ?_, ?_, ?_, ?_,
    ?_, ?_, ?_, ?_, ?_, ?_, ?_, ?_, ?_, ?_, ?_, ?_, ?_, ?_, ?_, ?_, ?_, ?_,
    ?_, ?_, ?_⟩ <;> intros <;> rfl

/-- C6: array-valued parameters expand to exactly their elements, in input
order.  Spliced arrays (`bookmark-delete`, `bookmark-forget`,
`bookmark-move`, `revert`, `restore`, `file-chmod`, `file-list`,
`file-show`, `file-track`, `file-untrack`, `squash`, `tag-list`) contribute
one positional token per element; the shared-flag convention (`git-fetch`,
`git-push`) contributes one flag token followed by the elements. -/
theorem claim6_array_expansion :
    (∀ names : List String, bookmarkDeleteArgs names none
      = ["bookmark", "delete"] ++ names) ∧
    (∀ names : List String, bookmarkForgetArgs names none
      = ["bookmark", "forget"] ++ names) ∧
    (∀ (names : List String) (revision : String),
      bookmarkMoveArgs names revision none
        = ["bookmark", "move"] ++ names ++ ["-t", revision]) ∧
    (∀ revisions : List String, revertArgs revisions none none
      = ["revert"] ++ revisions) ∧
    (∀ paths : List String, restoreArgs none none paths none
      = ["restore"] ++ paths) ∧
    (∀ (mode : String) (paths : List String),
      fileChmodArgs mode paths none none
        = ["file", "chmod", mode] ++ paths) ∧
    (∀ paths : List String, fileListArgs none (some paths) none
      = ["file", "list"] ++ paths) ∧
    (∀ paths : List String, fileShowArgs paths none none
      = ["file", "show"] ++ paths) ∧
    (∀ paths : List String, fileTrackArgs paths none
      = ["file", "track"] ++ paths) ∧
    (∀ paths : List String, fileUntrackArgs paths none
      = ["file", "untrack"] ++ paths) ∧
    (∀ paths : List String, squashArgs none none (some paths) none none
      = ["squash"] ++ paths) ∧
    (∀ names : List String, tagListArgs (some names) none none
      = ["tag", "list"] ++ names) ∧
    (∀ branches : List String, gitFetchArgs none none (some branches)
      = ["git", "fetch", "--branch"] ++ branches) ∧
    (∀ bookmarks : List String,
      gitPushArgs none (some bookmarks) none none none none none
        = ["git", "push", "--bookmark"] ++ bookmarks) := by
  refine ⟨?_, ?_, ?_, ?_, ?_, ?_, ?_, ?_, ?_, ?_, ?_, ?_, ?_, ?_⟩ <;>
    intros <;> rfl

/-- C7: the rebase tool, given source `@-` and destination `main` with
`repoPath` omitted, builds exactly
`[rebase, --source, @-, --destination, main]`. -/
theorem claim7_rebase_example :
    rebaseArgs "@-" "main" none
      = ["rebase", "--source", "@-", "--destination", "main"] := rfl

/-- C8: the bookmark-create tool, given only the name `feature-x`, builds
exactly `[bookmark, create, feature-x]`, and the list contains no `-r`
token. -/
theorem claim8_bookmark_create_example :
    bookmarkCreateArgs "feature-x" none none
      = ["bookmark", "create", "feature-x"] ∧
    (bookmarkCreateArgs "feature-x" none none).count "-r" = 0 := by
  refine ⟨rfl, ?_⟩
  rfl

/-- C10: supplying an empty array to git-fetch's `branches` or git-push's
`bookmarks` emits the shared flag token dangling, with zero value tokens
after it, because an empty array is truthy in the handler's presence
test. -/
theorem claim10_dangling_shared_flag :
    gitFetchArgs none none (some []) = ["git", "fetch", "--branch"] ∧
    gitPushArgs none (some []) none none none none none
      = ["git", "push", "--bookmark"] :=
  ⟨rfl, rfl⟩

/-- C2: when the subprocess exits with status zero, `runJJCommand` returns
the standard output with only leading and trailing whitespace removed:
the output splits as whitespace-prefix ++ result ++ whitespace-suffix, and
the result itself begins and ends with non-whitespace (internal whitespace
is untouched, since the result is a contiguous slice of the output). -/
theorem claim2_stdout_trim (s : List Char) :
    ∃ pre suf : List Char,
      pre.all jsWhitespace = true ∧ suf.all jsWhitespace = true ∧
      s = pre ++ runJJCommand (ExecOutcome.ok s) ++ suf ∧
      (runJJCommand (ExecOutcome.ok s)).dropWhile jsWhitespace
        = runJJCommand (ExecOutcome.ok s) ∧
      (runJJCommand (ExecOutcome.ok s)).reverse.dropWhile jsWhitespace
        = (runJJCommand (ExecOutcome.ok s)).reverse :=
  trimBy_decomp jsWhitespace s

/-- C3: when the subprocess fails and its standard-error text is non-empty
(truthy), `runJJCommand` returns exactly the `Error: ` marker followed by
the trimmed standard-error text — recognizably an error and carrying the
diagnostic.  The handler never inspects the exit status, so this covers in
particular every non-zero exit with non-empty standard error. -/
theorem claim3_stderr_error (e : ExecError) (h : e.stderr ≠ []) :
    runJJCommand (ExecOutcome.err e) = errTag ++ trimChars e.stderr := by
  simp [runJJCommand, h]

theorem claim3_stderr_error_witness :
    runJJCommand (ExecOutcome.err ⟨some 1, (" boom\n").toList, []⟩)
      = errTag ++ trimChars ((" boom\n").toList) :=
  claim3_stderr_error ⟨some 1, (" boom\n").toList, []⟩ (by decide)

/-- C1 counterexample: a failure whose standard-error text is a single
space (truthy in JavaScript, so the stderr branch is taken) yields exactly
`Error: ` — the result carries no diagnostic at all, refuting the claim
that every failure result contains a non-empty diagnostic. -/
theorem claim1_counterexample :
    runJJCommand
        (ExecOutcome.err ⟨some 1, [' '], ("spawn jj ENOENT").toList⟩)
      = errTag ∧
    ¬ ∃ d : List Char, d ≠ [] ∧
        runJJCommand
            (ExecOutcome.err ⟨some 1, [' '], ("spawn jj ENOENT").toList⟩)
          = errTag ++ d := by
  have h0 : runJJCommand
      (ExecOutcome.err ⟨some 1, [' '], ("spawn jj ENOENT").toList⟩)
      = errTag := by decide
  refine ⟨h0, ?_⟩
  rintro ⟨d, hd, he⟩
  rw [h0] at he
  have hlen := congrArg List.length he
  rw [List.length_append] at hlen
  have hzero : d.length = 0 := by omega
  exact hd (List.length_eq_zero.mp hzero)

/-- C1 (amended): `runJJCommand` is a total function of the subprocess
outcome (no failure escapes it), and every failure yields a result that
starts with the `Error: ` marker, followed by the trimmed standard-error
text when the standard error is non-empty and by the error's message (the
operating-system description for a spawn failure) otherwise.  That
diagnostic is non-empty whenever the trimmed standard error is non-empty,
or the standard error is empty and the message is non-empty; a
whitespace-only standard error, however, yields an empty diagnostic. -/
theorem claim1_amended (e : ExecError) :
    (∃ d : List Char, runJJCommand (ExecOutcome.err e) = errTag ++ d) ∧
    (runJJCommand (ExecOutcome.err e)
      = errTag ++ (if e.stderr ≠ [] then trimChars e.stderr else e.message)) ∧
    (trimChars e.stderr ≠ [] ∨ (e.stderr = [] ∧ e.message ≠ []) →
      ∃ d : List Char, d ≠ [] ∧
        runJJCommand (ExecOutcome.err e) = errTag ++ d) := by
  have h2 : runJJCommand (ExecOutcome.err e)
      = errTag ++ (if e.stderr ≠ [] then trimChars e.stderr else e.message) := by
    by_cases h : e.stderr = [] <;> simp [runJJCommand, h]
  refine ⟨⟨_, h2⟩, h2, ?_⟩
  intro hcond
  rcases hcond with hne | hpair
  · have hstderr : e.stderr ≠ [] := by
      intro hnil
      rw [hnil] at hne
      exact hne rfl
    refine ⟨trimChars e.stderr, hne, ?_⟩
    simp [runJJCommand, hstderr]
  · refine ⟨e.message, hpair.2, ?_⟩
    simp [runJJCommand, hpair.1]

theorem claim1_amended_witness :
    ∃ d : List Char, d ≠ [] ∧
      runJJCommand (ExecOutcome.err ⟨some 1, ("boom\n").toList, []⟩)
        = errTag ++ d :=
  (claim1_amended ⟨some 1, ("boom\n").toList, []⟩).2.2 (Or.inl (by decide))

/-- C5 counterexample: the diff tool with `from` supplied as the empty
string builds just `[diff]` — zero `-f` tokens — although the optional
parameter was supplied, because the handler tests the value's truthiness
rather than its presence. -/
theorem claim5_counterexample :
    diffArgs (some "") none none none none = ["diff"] ∧
    (diffArgs (some "") none none none none).count "-f" = 0 :=
  ⟨rfl, rfl⟩

/-- C5 (amended): every tool's argument list is exactly its fixed head
followed, in the documented order, by one independent segment per optional
parameter; a segment is exactly the parameter's flag token (plus value
tokens) when the parameter is supplied with a truthy value, and is empty
when the parameter is omitted or supplied falsy (empty string, false, zero
for a truthiness-tested number), so no empty-string placeholder is ever
emitted. -/
theorem claim5_amended_segments :
    (∀ rp, statusArgs rp
      = ["status"] ++ strSeg rp (fun s => ["--repository", s])) ∧
    (∀ source destination rp, rebaseArgs source destination rp
      = ["rebase", "--source", source, "--destination", destination]
        ++ strSeg rp (fun s => ["--repository", s])) ∧
    (∀ message rp, commitArgs message rp
      = ["commit", "-m", message]
        ++ strSeg rp (fun s => ["--repository", s])) ∧
    (∀ parents rp, newArgs parents rp
      = ["new"] ++ strSeg parents (fun s => ["--parents", s])
        ++ strSeg rp (fun s => ["--repository", s])) ∧
    (∀ revisions rp, abandonArgs revisions rp
      = ["abandon", revisions]
        ++ strSeg rp (fun s => ["--repository", s])) ∧
    (∀ rp limit, logArgs rp limit
      = ["log"] ++ strSeg rp (fun s => ["--repository", s])
        ++ numPresentSeg limit (fun n => ["-n", toString n])) ∧
    (∀ name revision rp, bookmarkCreateArgs name revision rp
      = ["bookmark", "create", name] ++ strSeg revision (fun s => ["-r", s])
        ++ strSeg rp (fun s => ["--repository", s])) ∧
    (∀ names rp, bookmarkDeleteArgs names rp
      = ["bookmark", "delete"] ++ names
        ++ strSeg rp (fun s => ["--repository", s])) ∧
    (∀ names rp, bookmarkForgetArgs names rp
      = ["bookmark", "forget"] ++ names
        ++ strSeg rp (fun s => ["--repository", s])) ∧
    (∀ rp template, bookmarkListArgs rp template
      = ["bookmark", "list"] ++ strSeg rp (fun s => ["--repository", s])
        ++ strSeg template (fun s => ["-T", s])) ∧
    (∀ names revision rp, bookmarkMoveArgs names revision rp
      = ["bookmark", "move"] ++ names ++ ["-t", revision]
        ++ strSeg rp (fun s => ["--repository", s])) ∧
    (∀ oldName newName rp, bookmarkRenameArgs oldName newName rp
      = ["bookmark", "rename", oldName, newName]
        ++ strSeg rp (fun s => ["--repository", s])) ∧
    (∀ name revision rp, bookmarkSetArgs name revision rp
      = ["bookmark", "set", name, "-r", revision]
        ++ strSeg rp (fun s => ["--repository", s])) ∧
    (∀ remoteBookmark rp, bookmarkTrackArgs remoteBookmark rp
      = ["bookmark", "track", remoteBookmark]
        ++ strSeg rp (fun s => ["--repository", s])) ∧
    (∀ remoteBookmark rp, bookmarkUntrackArgs remoteBookmark rp
      = ["bookmark", "untrack", remoteBookmark]
        ++ strSeg rp (fun s => ["--repository", s])) ∧
    (∀ fromRev toRev rp context stat, diffArgs fromRev toRev rp context stat
      = ["diff"] ++ strSeg fromRev (fun s => ["-f", s])
        ++ strSeg toRev (fun s => ["-t", s])
        ++ strSeg rp (fun s => ["--repository", s])
        ++ numPresentSeg context (fun n => ["--context", toString n])
        ++ boolSeg stat ["--stat"]) ∧
    (∀ source destination remoteName colocate depth,
      gitCloneArgs source destination remoteName colocate depth
      = ["git", "clone", source] ++ strSeg destination (fun s => [s])
        ++ strSeg remoteName (fun s => ["--remote", s])
        ++ boolSeg colocate ["--colocate"]
        ++ numTruthySeg depth (fun n => ["--depth", toString n])) ∧
    (∀ rp, gitExportArgs rp
      = ["git", "export"] ++ strSeg rp (fun s => ["--repository", s])) ∧
    (∀ remote rp branches, gitFetchArgs remote rp branches
      = ["git", "fetch"] ++ strSeg remote (fun s => ["--remote", s])
        ++ strSeg rp (fun s => ["--repository", s])
        ++ arrSeg branches (fun xs => "--branch" :: xs)) ∧
    (∀ rp, gitImportArgs rp
      = ["git", "import"] ++ strSeg rp (fun s => ["--repository", s])) ∧
    (∀ destination colocate gitRepo, initArgs destination colocate gitRepo
      = ["git", "init"] ++ strSeg destination (fun s => [s])
        ++ boolSeg colocate ["--colocate"]
        ++ strSeg gitRepo (fun s => ["--git-repo", s])) ∧
    (∀ remote bookmarks allFlag tracked deleted allowNew rp,
      gitPushArgs remote bookmarks allFlag tracked deleted allowNew rp
      = ["git", "push"] ++ strSeg remote (fun s => ["--remote", s])
        ++ arrSeg bookmarks (fun xs => "--bookmark" :: xs)
        ++ boolSeg allFlag ["--all"] ++ boolSeg tracked ["--tracked"]
        ++ boolSeg deleted ["--deleted"] ++ boolSeg allowNew ["--allow-new"]
        ++ strSeg rp (fun s => ["--repository", s])) ∧
    (∀ name url rp, gitRemoteAddArgs name url rp
      = ["git", "remote", "add", name, url]
        ++ strSeg rp (fun s => ["--repository", s])) ∧
    (∀ rp, gitRemoteListArgs rp
      = ["git", "remote", "list"]
        ++ strSeg rp (fun s => ["--repository", s])) ∧
    (∀ name rp, gitRemoteRemoveArgs name rp
      = ["git", "remote", "remove", name]
        ++ strSeg rp (fun s => ["--repository", s])) ∧
    (∀ oldName newName rp, gitRemoteRenameArgs oldName newName rp
      = ["git", "remote", "rename", oldName, newName]
        ++ strSeg rp (fun s => ["--repository", s])) ∧
    (∀ name url rp, gitRemoteSetUrlArgs name url rp
      = ["git", "remote", "set-url", name, url]
        ++ strSeg rp (fun s => ["--repository", s])) ∧
    (∀ rp, gitRootArgs rp
      = ["git", "root"] ++ strSeg rp (fun s => ["--repository", s])) ∧
    (∀ revision rp context, showArgs revision rp context
      = ["show"] ++ strSeg revision (fun s => ["-r", s])
        ++ strSeg rp (fun s => ["--repository", s])
        ++ numPresentSeg context (fun n => ["--context", toString n])) ∧
    (∀ revisions destination rp, revertArgs revisions destination rp
      = ["revert"] ++ strSeg destination (fun s => ["-d", s]) ++ revisions
        ++ strSeg rp (fun s => ["--repository", s])) ∧
    (∀ source destination paths rp, restoreArgs source destination paths rp
      = ["restore"] ++ strSeg source (fun s => ["-f", s])
        ++ strSeg destination (fun s => ["-t", s]) ++ paths
        ++ strSeg rp (fun s => ["--repository", s])) ∧
    (∀ fromRev toRev rp context, interdiffArgs fromRev toRev rp context
      = ["interdiff", "-f", fromRev, "-t", toRev]
        ++ strSeg rp (fun s => ["--repository", s])
        ++ numPresentSeg context (fun n => ["--context", toString n])) ∧
    (∀ revision rp limit patch, evologArgs revision rp limit patch
      = ["evolog"] ++ strSeg revision (fun s => ["-r", s])
        ++ strSeg rp (fun s => ["--repository", s])
        ++ numTruthySeg limit (fun n => ["-n", toString n])
        ++ boolSeg patch ["-p"]) ∧
    (∀ revision rp, editArgs revision rp
      = ["edit", revision] ++ strSeg rp (fun s => ["--repository", s])) ∧
    (∀ path revision rp, fileAnnotateArgs path revision rp
      = ["file", "annotate"] ++ strSeg revision (fun s => ["-r", s])
        ++ [path] ++ strSeg rp (fun s => ["--repository", s])) ∧
    (∀ mode paths revision rp, fileChmodArgs mode paths revision rp
      = ["file", "chmod"] ++ strSeg revision (fun s => ["-r", s])
        ++ [mode] ++ paths ++ strSeg rp (fun s => ["--repository", s])) ∧
    (∀ revision paths rp, fileListArgs revision paths rp
      = ["file", "list"] ++ strSeg revision (fun s => ["-r", s])
        ++ arrSeg paths (fun xs => xs)
        ++ strSeg rp (fun s => ["--repository", s])) ∧
    (∀ paths revision rp, fileShowArgs paths revision rp
      = ["file", "show"] ++ strSeg revision (fun s => ["-r", s])
        ++ paths ++ strSeg rp (fun s => ["--repository", s])) ∧
    (∀ paths rp, fileTrackArgs paths rp
      = ["file", "track"] ++ paths
        ++ strSeg rp (fun s => ["--repository", s])) ∧
    (∀ paths rp, fileUntrackArgs paths rp
      = ["file", "untrack"] ++ paths
        ++ strSeg rp (fun s => ["--repository", s])) ∧
    (∀ source destination paths keepEmptied rp,
      squashArgs source destination paths keepEmptied rp
      = ["squash"] ++ strSeg source (fun s => ["-f", s])
        ++ strSeg destination (fun s => ["-t", s])
        ++ arrSeg paths (fun xs => xs) ++ boolSeg keepEmptied ["-k"]
        ++ strSeg rp (fun s => ["--repository", s])) ∧
    (∀ rp, workspaceRootArgs rp
      = ["workspace", "root"] ++ strSeg rp (fun s => ["--repository", s])) ∧
    (∀ operation rp, operationAbandonArgs operation rp
      = ["operation", "abandon", operation]
        ++ strSeg rp (fun s => ["--repository", s])) ∧
    (∀ fromOp toOp rp context, operationDiffArgs fromOp toOp rp context
      = ["operation", "diff"] ++ strSeg fromOp (fun s => ["-f", s])
        ++ strSeg toOp (fun s => ["-t", s])
        ++ strSeg rp (fun s => ["--repository", s])
        ++ numPresentSeg context (fun n => ["--context", toString n])) ∧
    (∀ limit rp, operationLogArgs limit rp
      = ["operation", "log"]
        ++ numTruthySeg limit (fun n => ["-n", toString n])
        ++ strSeg rp (fun s => ["--repository", s])) ∧
    (∀ operation rp, operationRestoreArgs operation rp
      = ["operation", "restore", operation]
        ++ strSeg rp (fun s => ["--repository", s])) ∧
    (∀ operation rp, operationShowArgs operation rp
      = ["operation", "show"] ++ strSeg operation (fun s => [s])
        ++ strSeg rp (fun s => ["--repository", s])) ∧
    (∀ operation rp, operationUndoArgs operation rp
      = ["operation", "undo"] ++ strSeg operation (fun s => [s])
        ++ strSeg rp (fun s => ["--repository", s])) ∧
    (∀ name rp, configGetArgs name rp
      = ["config", "get", name]
        ++ strSeg rp (fun s => ["--repository", s])) ∧
    (∀ name includeDefaults includeOverridden user repo rp,
      configListArgs name includeDefaults includeOverridden user repo rp
      = ["config", "list"] ++ strSeg name (fun s => [s])
        ++ boolSeg includeDefaults ["--include-defaults"]
        ++ boolSeg includeOverridden ["--include-overridden"]
        ++ boolSeg user ["--user"] ++ boolSeg repo ["--repo"]
        ++ strSeg rp (fun s => ["--repository", s])) ∧
    (∀ name value user repo rp, configSetArgs name value user repo rp
      = ["config", "set"] ++ boolSeg user ["--user"]
        ++ boolSeg repo ["--repo"] ++ [name, value]
        ++ strSeg rp (fun s => ["--repository", s])) ∧
    (∀ name user repo rp, configUnsetArgs name user repo rp
      = ["config", "unset"] ++ boolSeg user ["--user"]
        ++ boolSeg repo ["--repo"] ++ [name]
        ++ strSeg rp (fun s => ["--repository", s])) ∧
    (∀ user repo rp, configPathArgs user repo rp
      = ["config", "path"] ++ boolSeg user ["--user"]
        ++ boolSeg repo ["--repo"]
        ++ strSeg rp (fun s => ["--repository", s])) ∧
    (∀ names rp template, tagListArgs names rp template
      = ["tag", "list"] ++ arrSeg names (fun xs => xs)
        ++ strSeg rp (fun s => ["--repository", s])
        ++ strSeg template (fun s => ["-T", s])) ∧
    (∀ message revisions resetAuthor author rp,
      describeArgs message revisions resetAuthor author rp
      = ["describe"] ++ strSeg rp (fun s => ["--repository", s])
        ++ ["-m", message] ++ boolSeg resetAuthor ["--reset-author"]
        ++ strSeg author (fun s => ["--author", s])
        ++ strSeg revisions (fun s => [s])) := by
  refine ⟨?_, ?_, ?_, ?_, ?_, ?_, ?_, ?_, ?_, ?_, ?_, ?_, ?_, ?_, ?_, ?_,
    ?_, ?_, ?_, ?_, ?_, ?_, ?_, ?_, ?_, ?_, ?_, ?_, ?_, ?_, ?_, ?_, ?_, ?_,
    ?_, ?_, ?_, ?_, ?_, ?_, ?_, ?_, ?_, ?_, ?_, ?_, ?_, ?_, ?_, ?_, ?_, ?_,
    ?_, ?_, ?_⟩ <;> intros <;>
  simp [statusArgs, rebaseArgs, commitArgs, newArgs, abandonArgs, logArgs,
    bookmarkCreateArgs, bookmarkDeleteArgs, bookmarkForgetArgs,
    bookmarkListArgs, bookmarkMoveArgs, bookmarkRenameArgs, bookmarkSetArgs,
    bookmarkTrackArgs, bookmarkUntrackArgs, diffArgs, gitCloneArgs,
    gitExportArgs, gitFetchArgs, gitImportArgs, initArgs, gitPushArgs,
    gitRemoteAddArgs, gitRemoteListArgs, gitRemoteRemoveArgs,
    gitRemoteRenameArgs, gitRemoteSetUrlArgs, gitRootArgs, showArgs,
    revertArgs, restoreArgs, interdiffArgs, evologArgs, editArgs,
    fileAnnotateArgs, fileChmodArgs, fileListArgs, fileShowArgs,
    fileTrackArgs, fileUntrackArgs, squashArgs, workspaceRootArgs,
    operationAbandonArgs, operationDiffArgs, operationLogArgs,
    operationRestoreArgs, operationShowArgs, operationUndoArgs,
    configGetArgs, configListArgs, configSetArgs, configUnsetArgs,
    configPathArgs, tagListArgs, describeArgs,
    pushIfStr_eq_append, pushIfBool_eq_append, pushIfNumPresent_eq_append,
    pushIfNumTruthy_eq_append, pushIfArr_eq_append, List.append_assoc]

/-- C9: for every tool and every optional string parameter, supplying the
empty string is treated identically to omitting the parameter — no flag
token and no positional token is emitted for it — because every handler
tests the value's JavaScript truthiness rather than its presence. -/
theorem claim9_empty_string_as_omitted :
    (statusArgs (some "") = statusArgs none) ∧
    (∀ source destination, rebaseArgs source destination (some "")
      = rebaseArgs source destination none) ∧
    (∀ message, commitArgs message (some "") = commitArgs message none) ∧
    (∀ rp, newArgs (some "") rp = newArgs none rp) ∧
    (∀ parents, newArgs parents (some "") = newArgs parents none) ∧
    (∀ revisions, abandonArgs revisions (some "")
      = abandonArgs revisions none) ∧
    (∀ limit, logArgs (some "") limit = logArgs none limit) ∧
    (∀ name rp, bookmarkCreateArgs name (some "") rp
      = bookmarkCreateArgs name none rp) ∧
    (∀ name revision, bookmarkCreateArgs name revision (some "")
      = bookmarkCreateArgs name revision none) ∧
    (∀ names, bookmarkDeleteArgs names (some "")
      = bookmarkDeleteArgs names none) ∧
    (∀ names, bookmarkForgetArgs names (some "")
      = bookmarkForgetArgs names none) ∧
    (∀ template, bookmarkListArgs (some "") template
      = bookmarkListArgs none template) ∧
    (∀ rp, bookmarkListArgs rp (some "") = bookmarkListArgs rp none) ∧
    (∀ names revision, bookmarkMoveArgs names revision (some "")
      = bookmarkMoveArgs names revision none) ∧
    (∀ oldName newName, bookmarkRenameArgs oldName newName (some "")
      = bookmarkRenameArgs oldName newName none) ∧
    (∀ name revision, bookmarkSetArgs name revision (some "")
      = bookmarkSetArgs name revision none) ∧
    (∀ remoteBookmark, bookmarkTrackArgs remoteBookmark (some "")
      = bookmarkTrackArgs remoteBookmark none) ∧
    (∀ remoteBookmark, bookmarkUntrackArgs remoteBookmark (some "")
      = bookmarkUntrackArgs remoteBookmark none) ∧
    (∀ toRev rp context stat, diffArgs (some "") toRev rp context stat
      = diffArgs none toRev rp context stat) ∧
    (∀ fromRev rp context stat, diffArgs fromRev (some "") rp context stat
      = diffArgs fromRev none rp context stat) ∧
    (∀ fromRev toRev context stat,
      diffArgs fromRev toRev (some "") context stat
      = diffArgs fromRev toRev none context stat) ∧
    (∀ source remoteName colocate depth,
      gitCloneArgs source (some "") remoteName colocate depth
      = gitCloneArgs source none remoteName colocate depth) ∧
    (∀ source destination colocate depth,
      gitCloneArgs source destination (some "") colocate depth
      = gitCloneArgs source destination none colocate depth) ∧
    (gitExportArgs (some "") = gitExportArgs none) ∧
    (∀ rp branches, gitFetchArgs (some "") rp branches
      = gitFetchArgs none rp branches) ∧
    (∀ remote branches, gitFetchArgs remote (some "") branches
      = gitFetchArgs remote none branches) ∧
    (gitImportArgs (some "") = gitImportArgs none) ∧
    (∀ colocate gitRepo, initArgs (some "") colocate gitRepo
      = initArgs none colocate gitRepo) ∧
    (∀ destination colocate, initArgs destination colocate (some "")
      = initArgs destination colocate none) ∧
    (∀ bookmarks allFlag tracked deleted allowNew rp,
      gitPushArgs (some "") bookmarks allFlag tracked deleted allowNew rp
      = gitPushArgs none bookmarks allFlag tracked deleted allowNew rp) ∧
    (∀ remote bookmarks allFlag tracked deleted allowNew,
      gitPushArgs remote bookmarks allFlag tracked deleted allowNew (some "")
      = gitPushArgs remote bookmarks allFlag tracked deleted allowNew none) ∧
    (∀ name url, gitRemoteAddArgs name url (some "")
      = gitRemoteAddArgs name url none) ∧
    (gitRemoteListArgs (some "") = gitRemoteListArgs none) ∧
    (∀ name, gitRemoteRemoveArgs name (some "")
      = gitRemoteRemoveArgs name none) ∧
    (∀ oldName newName, gitRemoteRenameArgs oldName newName (some "")
      = gitRemoteRenameArgs oldName newName none) ∧
    (∀ name url, gitRemoteSetUrlArgs name url (some "")
      = gitRemoteSetUrlArgs name url none) ∧
    (gitRootArgs (some "") = gitRootArgs none) ∧
    (∀ rp context, showArgs (some "") rp context
      = showArgs none rp context) ∧
    (∀ revision context, showArgs revision (some "") context
      = showArgs revision none context) ∧
    (∀ revisions rp, revertArgs revisions (some "") rp
      = revertArgs revisions none rp) ∧
    (∀ revisions destination, revertArgs revisions destination (some "")
      = revertArgs revisions destination none) ∧
    (∀ destination paths rp, restoreArgs (some "") destination paths rp
      = restoreArgs none destination paths rp) ∧
    (∀ source paths rp, restoreArgs source (some "") paths rp
      = restoreArgs source none paths rp) ∧
    (∀ source destination paths,
      restoreArgs source destination paths (some "")
      = restoreArgs source destination paths none) ∧
    (∀ fromRev toRev context, interdiffArgs fromRev toRev (some "") context
      = interdiffArgs fromRev toRev none context) ∧
    (∀ rp limit patch, evologArgs (some "") rp limit patch
      = evologArgs none rp limit patch) ∧
    (∀ revision limit patch, evologArgs revision (some "") limit patch
      = evologArgs revision none limit patch) ∧
    (∀ revision, editArgs revision (some "") = editArgs revision none) ∧
    (∀ path rp, fileAnnotateArgs path (some "") rp
      = fileAnnotateArgs path none rp) ∧
    (∀ path revision, fileAnnotateArgs path revision (some "")
      = fileAnnotateArgs path revision none) ∧
    (∀ mode paths rp, fileChmodArgs mode paths (some "") rp
      = fileChmodArgs mode paths none rp) ∧
    (∀ mode paths revision, fileChmodArgs mode paths revision (some "")
      = fileChmodArgs mode paths revision none) ∧
    (∀ paths rp, fileListArgs (some "") paths rp
      = fileListArgs none paths rp) ∧
    (∀ revision paths, fileListArgs revision paths (some "")
      = fileListArgs revision paths none) ∧
    (∀ paths rp, fileShowArgs paths (some "") rp
      = fileShowArgs paths none rp) ∧
    (∀ paths revision, fileShowArgs paths revision (some "")
      = fileShowArgs paths revision none) ∧
    (∀ paths, fileTrackArgs paths (some "") = fileTrackArgs paths none) ∧
    (∀ paths, fileUntrackArgs paths (some "")
      = fileUntrackArgs paths none) ∧
    (∀ destination paths keepEmptied rp,
      squashArgs (some "") destination paths keepEmptied rp
      = squashArgs none destination paths keepEmptied rp) ∧
    (∀ source paths keepEmptied rp,
      squashArgs source (some "") paths keepEmptied rp
      = squashArgs source none paths keepEmptied rp) ∧
    (∀ source destination paths keepEmptied,
      squashArgs source destination paths keepEmptied (some "")
      = squashArgs source destination paths keepEmptied none) ∧
    (workspaceRootArgs (some "") = workspaceRootArgs none) ∧
    (∀ operation, operationAbandonArgs operation (some "")
      = operationAbandonArgs operation none) ∧
    (∀ toOp rp context, operationDiffArgs (some "") toOp rp context
      = operationDiffArgs none toOp rp context) ∧
    (∀ fromOp rp context, operationDiffArgs fromOp (some "") rp context
      = operationDiffArgs fromOp none rp context) ∧
    (∀ fromOp toOp context, operationDiffArgs fromOp toOp (some "") context
      = operationDiffArgs fromOp toOp none context) ∧
    (∀ limit, operationLogArgs limit (some "")
      = operationLogArgs limit none) ∧
    (∀ operation, operationRestoreArgs operation (some "")
      = operationRestoreArgs operation none) ∧
    (∀ rp, operationShowArgs (some "") rp = operationShowArgs none rp) ∧
    (∀ operation, operationShowArgs operation (some "")
      = operationShowArgs operation none) ∧
    (∀ rp, operationUndoArgs (some "") rp = operationUndoArgs none rp) ∧
    (∀ operation, operationUndoArgs operation (some "")
      = operationUndoArgs operation none) ∧
    (∀ name, configGetArgs name (some "") = configGetArgs name none) ∧
    (∀ includeDefaults includeOverridden user repo rp,
      configListArgs (some "") includeDefaults includeOverridden user repo rp
      = configListArgs none includeDefaults includeOverridden user repo rp) ∧
    (∀ name includeDefaults includeOverridden user repo,
      configListArgs name includeDefaults includeOverridden user repo
        (some "")
      = configListArgs name includeDefaults includeOverridden user repo
        none) ∧
    (∀ name value user repo, configSetArgs name value user repo (some "")
      = configSetArgs name value user repo none) ∧
    (∀ name user repo, configUnsetArgs name user repo (some "")
      = configUnsetArgs name user repo none) ∧
    (∀ user repo, configPathArgs user repo (some "")
      = configPathArgs user repo none) ∧
    (∀ names template, tagListArgs names (some "") template
      = tagListArgs names none template) ∧
    (∀ names rp, tagListArgs names rp (some "")
      = tagListArgs names rp none) ∧
    (∀ message resetAuthor author rp,
      describeArgs message (some "") resetAuthor author rp
      = describeArgs message none resetAuthor author rp) ∧
    (∀ message revisions resetAuthor rp,
      describeArgs message revisions resetAuthor (some "") rp
      = describeArgs message revisions resetAuthor none rp) ∧
    (∀ message revisions resetAuthor author,
      describeArgs message revisions resetAuthor author (some "")
      = describeArgs message revisions resetAuthor author none) := by
  refine ⟨?_, ?_, ?_, ?_, ?_, ?_, ?_, ?_, ?_, ?_, ?_, ?_, ?_, ?_, ?_, ?_,
    ?_, ?_, ?_, ?_, ?_, ?_, ?_, ?_, ?_, ?_, ?_, ?_, ?_, ?_, ?_, ?_, ?_, ?_,
    ?_, ?_, ?_, ?_, ?_, ?_, ?_, ?_, ?_, ?_, ?_, ?_, ?_, ?_, ?_, ?_, ?_, ?_,
    ?_, ?_, ?_, ?_, ?_, ?_, ?_, ?_, ?_, ?_, ?_, ?_, ?_, ?_, ?_, ?_, ?_, ?_,
    ?_, ?_, ?_, ?_, ?_, ?_, ?_, ?_, ?_, ?_, ?_, ?_, ?_⟩ <;> intros <;> rfl
